import Mathlib

/-!
Shallow embedding of `facedancer/future/endpoint.py` (class `USBEndpoint`),
together with theorems settling the specification claims about it.

Python unbounded non-negative integers are modelled as `Nat`; the bitwise
operators `&`, `|`, `<<`, `>>` of the source become `&&&`, `|||`, `<<<`, `>>>`.
The `bytearray` constructor raises `ValueError` when an element is out of the
range 0..255, so descriptor construction is modelled as an `Option`.
-/

/-- Modelled from the spec: `facedancer/future/types.py` is not under `src/`.
The spec fixes the enumeration `USBDirection` as having members IN and OUT;
only equality with IN is used by the endpoint code, so no numeric values are
needed for this enumeration. -/
inductive USBDirection
  | OUT
  | IN
deriving DecidableEq

/-- Modelled from the spec: `facedancer/future/types.py` is not under `src/`.
Members per spec section 3; numeric values fixed by the spec's attribute-byte
examples (BULK/NONE/DATA gives 0x02, ISOCHRONOUS/ASYNC/FEEDBACK gives 0x15)
and the USB standard. -/
inductive USBTransferType
  | CONTROL
  | ISOCHRONOUS
  | BULK
  | INTERRUPT
deriving DecidableEq

/-- Modelled from the spec: numeric value of each `USBTransferType` member
(IntEnum in the missing `types.py`). -/
def USBTransferType.val : USBTransferType → Nat
  | .CONTROL => 0
  | .ISOCHRONOUS => 1
  | .BULK => 2
  | .INTERRUPT => 3

/-- Modelled from the spec: `facedancer/future/types.py` is not under `src/`.
Members per spec section 3. -/
inductive USBSynchronizationType
  | NONE
  | ASYNC
  | ADAPTIVE
  | SYNC
deriving DecidableEq

/-- Modelled from the spec: numeric value of each `USBSynchronizationType`
member, fixed by the spec's attribute-byte examples. -/
def USBSynchronizationType.val : USBSynchronizationType → Nat
  | .NONE => 0
  | .ASYNC => 1
  | .ADAPTIVE => 2
  | .SYNC => 3

/-- Modelled from the spec: `facedancer/future/types.py` is not under `src/`.
Members per spec section 3. -/
inductive USBUsageType
  | DATA
  | FEEDBACK
  | IMPLICIT_FEEDBACK
deriving DecidableEq

/-- Modelled from the spec: numeric value of each `USBUsageType` member,
fixed by the spec's attribute-byte examples. -/
def USBUsageType.val : USBUsageType → Nat
  | .DATA => 0
  | .FEEDBACK => 1
  | .IMPLICIT_FEEDBACK => 2

/-- Modelled from the spec: the standard request numbers used by the endpoint
(`USBStandardRequests` lives in the missing `types.py`); only CLEAR_FEATURE is
referenced by the endpoint code. -/
inductive USBStandardRequests
  | CLEAR_FEATURE
deriving DecidableEq, BEq

/-- The dataclass fields of `USBEndpoint` (endpoint.py lines 30-44), with the
same defaults. The `parent` back-reference is an external collaborator (the
owning descriptor-tree node) and is not part of the fields the claims touch. -/
structure USBEndpoint where
  number : Nat
  direction : USBDirection
  transfer_type : USBTransferType := USBTransferType.BULK
  synchronization_type : USBSynchronizationType := USBSynchronizationType.NONE
  usage_type : USBUsageType := USBUsageType.DATA
  max_packet_size : Nat := 64
  interval : Nat := 0
deriving DecidableEq

/-- Error type named by the spec's error taxonomy for malformed construction;
the source never raises it. -/
inductive ConfigurationError
  | configurationError
deriving DecidableEq

/-- Translation of dataclass construction plus `__post_init__` (endpoint.py
lines 47-50): the generated `__init__` stores the fields unchanged and
`__post_init__` only collects the request-handler methods — no field
validation of any kind is performed, so construction always succeeds. -/
def mkUSBEndpoint (number : Nat) (direction : USBDirection)
    (transfer_type : USBTransferType)
    (synchronization_type : USBSynchronizationType)
    (usage_type : USBUsageType)
    (max_packet_size : Nat) (interval : Nat) :
    Except ConfigurationError USBEndpoint :=
  Except.ok { number := number, direction := direction,
              transfer_type := transfer_type,
              synchronization_type := synchronization_type,
              usage_type := usage_type,
              max_packet_size := max_packet_size, interval := interval }

/-- Translation of the static method `address_for_number` (endpoint.py lines
56-60). -/
def USBEndpoint.address_for_number (endpoint_number : Nat)
    (direction : USBDirection) : Nat :=
  let direction_mask := if direction = USBDirection.IN then 0x80 else 0x00
  endpoint_number ||| direction_mask

/-- Translation of the `address` property (endpoint.py lines 114-117). -/
def USBEndpoint.address (e : USBEndpoint) : Nat :=
  USBEndpoint.address_for_number e.number e.direction

/-- Translation of `get_identifier` (endpoint.py lines 154-155). -/
def USBEndpoint.get_identifier (e : USBEndpoint) : Nat :=
  e.address

/-- Translation of `matches_identifier` (endpoint.py lines 157-160). The body
binds the constant mask `0b10001111` to `masked_other` and compares the
endpoint's own identifier against that constant; the parameter `other` is
never used. -/
def USBEndpoint.matches_identifier (e : USBEndpoint) (other : Nat) : Bool :=
  let masked_other := 0b10001111
  e.get_identifier == masked_other

/-- Translation of the `attributes` property (endpoint.py lines 125-130). -/
def USBEndpoint.attributes (e : USBEndpoint) : Nat :=
  (e.transfer_type.val &&& 0x03) |||
  ((e.synchronization_type.val &&& 0x03) <<< 2) |||
  ((e.usage_type.val &&& 0x03) <<< 4)

/-- Translation of `get_descriptor` (endpoint.py lines 133-147). The Python
body builds `bytearray([7, 5, address, attributes, mps and 0xff,
(mps shifted right 8) and 0xff, interval])`; `bytearray` raises `ValueError`
when any element is outside 0..255, modelled by the `Option`. -/
def USBEndpoint.get_descriptor (e : USBEndpoint) : Option (List Nat) :=
  let d := [7, 5, e.address, e.attributes,
            e.max_packet_size &&& 0xff,
            (e.max_packet_size >>> 8) &&& 0xff,
            e.interval]
  if d.all (fun b => b < 256) then some d else none

/-- Models the execution of `get_descriptor` with the receiver threaded
explicitly as state: the Python body only reads fields into a local
`bytearray` and contains no assignment to `self`, so the receiver after the
call is the receiver before it. -/
def USBEndpoint.get_descriptor_run (e : USBEndpoint) :
    Option (List Nat) × USBEndpoint :=
  (e.get_descriptor, e)

/-- The spec's DirectionViolation error for `send` on an OUT endpoint; the
source never raises it. -/
inductive DirectionViolation
  | directionViolation
deriving DecidableEq

/-- A call made on the owning device collaborator. `send` reaches the device
through `self.get_device()._send_in_packets(...)` (endpoint.py lines 63-77);
the device itself is outside this core, so the call is recorded as data. -/
inductive DeviceCall
  | sendInPackets (endpoint_number : Nat) (data : List Nat)
      (packet_size : Nat) (blocking : Bool)
deriving DecidableEq

/-- Translation of `send` (endpoint.py lines 68-77): the body is the single
statement forwarding to the device's `_send_in_packets` with this endpoint's
number and `max_packet_size`; there is no check of `self.direction` and no
error path of its own. -/
def USBEndpoint.send (e : USBEndpoint) (data : List Nat) (blocking : Bool) :
    Except DirectionViolation DeviceCall :=
  Except.ok (DeviceCall.sendInPackets e.number data e.max_packet_size blocking)

/-- A Python runtime error that can escape the handler body. -/
inductive PyError
  | nameError
deriving DecidableEq

/-- The control request object passed into handlers. Only the parts the
endpoint touches are modelled: the `value` field read by the log line, and an
`acknowledged` flag recording whether `acknowledge()` was called. -/
structure USBRequest where
  value : Nat
  acknowledged : Bool := false
deriving DecidableEq

/-- The local names bound in the body of `handle_clear_feature_request`
(endpoint.py lines 104-107): the method's parameters are `self` and
`request`; no other local name is assigned before the log line runs. -/
def clear_feature_locals : List String := ["self", "request"]

/-- Python name resolution inside the handler body: looking up a name not
bound in the local (or any enclosing) scope raises `NameError`. -/
def lookup_local (n : String) : Except PyError Unit :=
  if n ∈ clear_feature_locals then Except.ok () else Except.error PyError.nameError

/-- Translation of `handle_clear_feature_request` (endpoint.py lines
102-107). The first statement evaluates the f-string argument of
`logger.debug`, which interpolates `self.number` and `req.value`; each
interpolated expression begins with a name lookup in the enclosing scope.
Only after the log statement does `request.acknowledge()` run, modelled as
setting the `acknowledged` flag. -/
def USBEndpoint.handle_clear_feature_request (e : USBEndpoint)
    (request : USBRequest) : Except PyError USBRequest := do
  _ ← lookup_local "self"
  _ ← lookup_local "req"
  Except.ok { request with acknowledged := true }

/-- Modelled from the spec: `get_request_handler_methods` and the
`standard_request_handler` / `to_this_endpoint` decorators live in
`facedancer/future/request.py`, which is not under `src/`. Per spec section
4.3 the constructor collects, in declaration order, the bound methods tagged
as standard-request handlers together with their request-number selector;
`USBEndpoint` declares exactly one such handler, `handle_clear_feature_request`,
tagged with CLEAR_FEATURE, and `_request_handlers` (endpoint.py lines 167-168)
returns that collection. -/
def USBEndpoint.request_handlers (e : USBEndpoint) :
    List (USBStandardRequests × (USBRequest → Except PyError USBRequest)) :=
  [(USBStandardRequests.CLEAR_FEATURE, e.handle_clear_feature_request)]

/-- The spec's worked example endpoint: number 1, direction IN, BULK
transfers, max packet size 64, interval 0. -/
def exampleEndpoint : USBEndpoint :=
  { number := 1, direction := USBDirection.IN,
    transfer_type := USBTransferType.BULK,
    synchronization_type := USBSynchronizationType.NONE,
    usage_type := USBUsageType.DATA,
    max_packet_size := 64, interval := 0 }

/-- An OUT-direction endpoint, for the `send` claim. -/
def outEndpoint : USBEndpoint :=
  { number := 2, direction := USBDirection.OUT,
    transfer_type := USBTransferType.BULK,
    synchronization_type := USBSynchronizationType.NONE,
    usage_type := USBUsageType.DATA,
    max_packet_size := 64, interval := 0 }

/-- An isochronous endpoint with ASYNC synchronization and FEEDBACK usage,
for the attribute-byte claim. -/
def isoEndpoint : USBEndpoint :=
  { number := 1, direction := USBDirection.IN,
    transfer_type := USBTransferType.ISOCHRONOUS,
    synchronization_type := USBSynchronizationType.ASYNC,
    usage_type := USBUsageType.FEEDBACK,
    max_packet_size := 64, interval := 0 }

/-- An endpoint with max packet size 512, for the round-trip claim witness. -/
def mps512Endpoint : USBEndpoint :=
  { number := 1, direction := USBDirection.IN,
    transfer_type := USBTransferType.BULK,
    synchronization_type := USBSynchronizationType.NONE,
    usage_type := USBUsageType.DATA,
    max_packet_size := 512, interval := 0 }

/-- An endpoint whose fields are equal to `exampleEndpoint`'s but written
differently, for the determinism claim witness. -/
def exampleEndpointTwin : USBEndpoint :=
  { number := 0 + 1, direction := USBDirection.IN,
    transfer_type := USBTransferType.BULK,
    synchronization_type := USBSynchronizationType.NONE,
    usage_type := USBUsageType.DATA,
    max_packet_size := 64, interval := 0 }

/-- C1: the claim states that `matches_identifier(candidate)` is true exactly
when the candidate and the endpoint's address agree under the mask
`0b10001111`. The code instead compares the endpoint's address to the mask
constant itself and ignores the candidate: for the endpoint with number 1 and
direction IN (address 0x81) and candidate 0x81, both masked values are 0x81,
yet `matches_identifier` returns false. -/
theorem c1_matches_identifier_ignores_candidate :
    exampleEndpoint.matches_identifier 0x81 = false ∧
    (0x81 &&& 0b10001111) = (exampleEndpoint.address &&& 0b10001111) := by
  constructor <;> decide

/-- C2: whenever `get_descriptor` returns a byte sequence, it has exactly 7
bytes with byte 0 equal to 7 and byte 1 equal to 5; and the endpoint with
number 1, direction IN, BULK, max packet size 64, interval 0 yields the byte
sequence 07 05 81 02 40 00 00. -/
theorem c2_descriptor_shape :
    (∀ (e : USBEndpoint) (l : List Nat), e.get_descriptor = some l →
      l.length = 7 ∧ l.get? 0 = some 7 ∧ l.get? 1 = some 5) ∧
    exampleEndpoint.get_descriptor =
      some [0x07, 0x05, 0x81, 0x02, 0x40, 0x00, 0x00] := by
  constructor
  · intro e l h
    unfold USBEndpoint.get_descriptor at h
    dsimp only at h
    split at h
    · cases h
      exact ⟨rfl, rfl, rfl⟩
    · cases h
  · decide

/-- Witness for C2 at the spec's example endpoint. -/
theorem c2_descriptor_shape_witness :
    ([0x07, 0x05, 0x81, 0x02, 0x40, 0x00, 0x00] : List Nat).length = 7 ∧
    ([0x07, 0x05, 0x81, 0x02, 0x40, 0x00, 0x00] : List Nat).get? 0 = some 7 ∧
    ([0x07, 0x05, 0x81, 0x02, 0x40, 0x00, 0x00] : List Nat).get? 1 = some 5 :=
  c2_descriptor_shape.1 exampleEndpoint _ c2_descriptor_shape.2

/-- C3: the CLEAR_FEATURE handler is registered exactly once, but invoking it
never reaches `request.acknowledge()`: the log line interpolates `req.value`
while the only bound names are `self` and `request`, so evaluating the
f-string raises `NameError` first. The claim that the request is acknowledged
fails on the code. -/
theorem c3_clear_feature_handler_raises (e : USBEndpoint) (request : USBRequest) :
    ((e.request_handlers.filter
        (fun p => p.1 == USBStandardRequests.CLEAR_FEATURE)).length = 1) ∧
    e.handle_clear_feature_request request = Except.error PyError.nameError :=
  ⟨rfl, rfl⟩

/-- C4 counterexample: on the OUT endpoint with number 2 and max packet size
64, `send` does not fail with DirectionViolation; it invokes the device's
packetization call, contradicting the claim that the call is never reached. -/
theorem c4_send_out_counterexample :
    outEndpoint.send [1, 2, 3] false =
      Except.ok (DeviceCall.sendInPackets 2 [1, 2, 3] 64 false) := rfl

/-- C4 amended: `send` performs no direction check; on every endpoint,
OUT-direction ones included, it succeeds and forwards the data to the owning
device's `_send_in_packets` with the endpoint's number and max packet size. -/
theorem c4_send_forwards_unconditionally (e : USBEndpoint) (data : List Nat)
    (blocking : Bool) :
    e.send data blocking =
      Except.ok (DeviceCall.sendInPackets e.number data e.max_packet_size blocking) :=
  rfl

/-- C5 counterexample: constructing an endpoint with number 16 (outside 0-15)
and max packet size 65536 (not representable in 16 bits) succeeds without a
ConfigurationError, contradicting the claim that construction rejects
malformed values. -/
theorem c5_construction_counterexample :
    mkUSBEndpoint 16 USBDirection.IN USBTransferType.BULK
        USBSynchronizationType.NONE USBUsageType.DATA 65536 0 =
      Except.ok { number := 16, direction := USBDirection.IN,
                  transfer_type := USBTransferType.BULK,
                  synchronization_type := USBSynchronizationType.NONE,
                  usage_type := USBUsageType.DATA,
                  max_packet_size := 65536, interval := 0 } := rfl

/-- C5 amended: construction performs no validation at all; every combination
of field values is accepted unchanged and no ConfigurationError is ever
raised (keeping values in range is the caller's responsibility). -/
theorem c5_construction_never_fails (number : Nat) (direction : USBDirection)
    (tt : USBTransferType) (st : USBSynchronizationType) (ut : USBUsageType)
    (mps iv : Nat) :
    mkUSBEndpoint number direction tt st ut mps iv =
      Except.ok { number := number, direction := direction,
                  transfer_type := tt, synchronization_type := st,
                  usage_type := ut,
                  max_packet_size := mps, interval := iv } := rfl

/-- C6: for every number in 0-15 and every direction, `address_for_number`
equals the number OR-ed with 0x80 exactly when the direction is IN, and bit 7
of the result is set exactly when the direction is IN. -/
theorem c6_address_for_number (n : Nat) (h : n ≤ 15) (d : USBDirection) :
    USBEndpoint.address_for_number n d =
      (n ||| (if d = USBDirection.IN then 0x80 else 0)) ∧
    ((USBEndpoint.address_for_number n d).testBit 7 = true ↔
      d = USBDirection.IN) := by
  interval_cases n <;> cases d <;> decide

/-- Witness for C6 at number 1, direction IN. -/
theorem c6_address_for_number_witness :
    USBEndpoint.address_for_number 1 USBDirection.IN =
      (1 ||| (if USBDirection.IN = USBDirection.IN then 0x80 else 0)) ∧
    ((USBEndpoint.address_for_number 1 USBDirection.IN).testBit 7 = true ↔
      USBDirection.IN = USBDirection.IN) :=
  c6_address_for_number 1 (by decide) USBDirection.IN

/-- C7: for every endpoint whose max packet size fits in 16 bits, decoding
bytes 4 and 5 of its descriptor as a little-endian 16-bit integer gives back
the max packet size. -/
theorem c7_mps_roundtrip (e : USBEndpoint) (l : List Nat)
    (hm : e.max_packet_size < 65536) (h : e.get_descriptor = some l) :
    l.getD 4 0 + 256 * l.getD 5 0 = e.max_packet_size := by
  unfold USBEndpoint.get_descriptor at h
  dsimp only at h
  split at h
  · cases h
    simp only [List.getD_cons_succ, List.getD_cons_zero]
    have h1 : e.max_packet_size &&& 255 = e.max_packet_size % 256 := by
      simpa using Nat.and_pow_two_sub_one_eq_mod e.max_packet_size 8
    have h2 : e.max_packet_size >>> 8 = e.max_packet_size / 256 :=
      Nat.shiftRight_eq_div_pow e.max_packet_size 8
    have h3 : e.max_packet_size / 256 &&& 255 = e.max_packet_size / 256 % 256 := by
      simpa using Nat.and_pow_two_sub_one_eq_mod (e.max_packet_size / 256) 8
    rw [h2, h1, h3]
    omega
  · cases h

/-- Witness for C7 at max packet size 512 (descriptor bytes 4 and 5 are 0x00
and 0x02). -/
theorem c7_mps_roundtrip_witness :
    ([7, 5, 0x81, 0x02, 0x00, 0x02, 0x00] : List Nat).getD 4 0 +
      256 * ([7, 5, 0x81, 0x02, 0x00, 0x02, 0x00] : List Nat).getD 5 0 = 512 :=
  c7_mps_roundtrip mps512Endpoint _ (by decide) rfl

/-- C8: the attributes byte is the transfer type masked to 2 bits, OR-ed with
the synchronization type masked to 2 bits shifted left 2, OR-ed with the
usage type masked to 2 bits shifted left 4; it is 0x02 for BULK/NONE/DATA and
0x15 for ISOCHRONOUS/ASYNC/FEEDBACK. -/
theorem c8_attributes_byte (e : USBEndpoint) :
    e.attributes = ((e.transfer_type.val &&& 0x03) |||
      ((e.synchronization_type.val &&& 0x03) <<< 2) |||
      ((e.usage_type.val &&& 0x03) <<< 4)) ∧
    exampleEndpoint.attributes = 0x02 ∧ isoEndpoint.attributes = 0x15 :=
  ⟨rfl, rfl, rfl⟩

/-- C9: `get_descriptor` is pure and deterministic: running it returns the
receiver unchanged, and endpoints with equal field values yield equal
descriptor results. -/
theorem c9_descriptor_pure_deterministic :
    (∀ e : USBEndpoint, e.get_descriptor_run.2 = e) ∧
    (∀ e₁ e₂ : USBEndpoint, e₁.number = e₂.number → e₁.direction = e₂.direction →
      e₁.transfer_type = e₂.transfer_type →
      e₁.synchronization_type = e₂.synchronization_type →
      e₁.usage_type = e₂.usage_type →
      e₁.max_packet_size = e₂.max_packet_size → e₁.interval = e₂.interval →
      e₁.get_descriptor = e₂.get_descriptor) := by
  constructor
  · intro e
    rfl
  · intro e₁ e₂ h1 h2 h3 h4 h5 h6 h7
    cases e₁
    cases e₂
    simp_all

/-- Witness for C9: the example endpoint and its differently-written twin
have equal fields and equal descriptors. -/
theorem c9_descriptor_pure_deterministic_witness :
    exampleEndpoint.get_descriptor_run.2 = exampleEndpoint ∧
    exampleEndpoint.get_descriptor = exampleEndpointTwin.get_descriptor :=
  ⟨c9_descriptor_pure_deterministic.1 exampleEndpoint,
   c9_descriptor_pure_deterministic.2 exampleEndpoint exampleEndpointTwin
     rfl rfl rfl rfl rfl rfl rfl⟩

/-- C10: `matches_identifier` ignores its candidate argument: any two
candidates give the same answer, and that answer is true exactly when the
endpoint's own address equals 0b10001111. -/
theorem c10_matches_identifier_constant (e : USBEndpoint) (a b : Nat) :
    e.matches_identifier a = e.matches_identifier b ∧
    (e.matches_identifier a = true ↔ e.address = 0b10001111) := by
  refine ⟨rfl, ?_⟩
  unfold USBEndpoint.matches_identifier USBEndpoint.get_identifier
  simp
